import Mathlib

/-!
Shallow embedding of the flam CLI (a command-line client for the Dragon
package registry).  The main file is `src/flam.js`; `src/unnamed/part_000`,
`part_001` and `part_002` are variants of the same script from the source
history.  Each CLI flow (login, publish, search, install) is modelled as a
pure function from an environment (the results the outside world returns to
the flow: network responses, the credential store contents, the manifest
read, the write-stream outcome) to the ordered list of observable effects
the flow performs (console lines, network requests, directory creation,
file creation/removal, config writes).
-/

namespace Flam

/-- Fixed registry base URL (`src/flam.js` line 14). -/
def API_URL : String := "https://sarver-fullstack-4.onrender.com"

/-- An axios-style error: `responseError` is `error.response?.data?.error`
(the server-provided error field, absent on transport failures) and
`message` is `error.message` (the low-level transport message). -/
structure AxiosError where
  responseError : Option String
  message : String
deriving Repr, DecidableEq

/-- JavaScript `a || b` on a possibly-absent string `a`: the fallback `b` is
used when `a` is absent or the empty string (empty strings are falsy). -/
def jsOr (a : Option String) (b : String) : String :=
  match a with
  | none => b
  | some s => if s.isEmpty then b else s

/-- JavaScript truthiness of a possibly-absent string (`if (!apiKey)`):
absent and the empty string are falsy. -/
def jsTruthy : Option String → Bool
  | none => false
  | some s => !s.isEmpty

/-- The on-disk configuration file `~/.flamconfig.json`: it may be missing,
unreadable/malformed JSON, or a parsed JSON object whose `apiKey` field may
itself be absent. -/
inductive ConfigFile where
  | missing
  | malformed
  | json (apiKey : Option String)
deriving Repr, DecidableEq

/-- `saveApiKey` (`src/flam.js` lines 20-22): writes `{ apiKey: key }`,
replacing any prior content wholesale. -/
def saveApiKey (key : String) (_old : ConfigFile) : ConfigFile :=
  ConfigFile.json (some key)

/-- `loadApiKey` (`src/flam.js` lines 25-32): returns the stored `apiKey`
field; any read/parse failure is caught and yields `none`. -/
def loadApiKey : ConfigFile → Option String
  | ConfigFile.missing => none
  | ConfigFile.malformed => none
  | ConfigFile.json k => k

/-- Observable effects a flow performs, in order. -/
inductive Effect where
  | print (msg : String)
  | printErr (msg : String)
  | netRequest (method url : String)
  | ensureDir (dir : String)
  | createFile (path : String)
  | removeFile (path : String)
  | writeConfig (key : String)
deriving Repr, DecidableEq

/-- Is this effect a network request? -/
def isNetRequest : Effect → Bool
  | Effect.netRequest _ _ => true
  | _ => false

/-- Is this effect a directory-creation (`fse.ensureDir`) call? -/
def isEnsureDir : Effect → Bool
  | Effect.ensureDir _ => true
  | _ => false

/-- Paths of files created in a trace. -/
def createdFiles (t : List Effect) : List String :=
  t.filterMap fun e =>
    match e with
    | Effect.createFile p => some p
    | _ => none

/-- Paths of files removed in a trace. -/
def removedFiles (t : List Effect) : List String :=
  t.filterMap fun e =>
    match e with
    | Effect.removeFile p => some p
    | _ => none

/-- Error-console lines of a trace. -/
def printErrs (t : List Effect) : List String :=
  t.filterMap fun e =>
    match e with
    | Effect.printErr m => some m
    | _ => none

/-- Environment of a login invocation: the outcome of the
`POST /auth/login` request (a session token on success) and, per session
token, the outcome of the `POST /user/api-token` request (an API key on
success). -/
structure LoginEnv where
  authLogin : Except AxiosError String
  apiToken : String → Except AxiosError String

/-- The `login` action (`src/flam.js` lines 46-65): POST credentials for a
session token, POST the token for a long-lived API key, persist the key via
`saveApiKey`.  Any failure is caught at the top and printed as
`Erreur de connexion : <server error field || transport message>`, leaving
the store untouched. -/
def loginFlow (env : LoginEnv) (store : ConfigFile) : ConfigFile × List Effect :=
  let pre := [Effect.print "Tentative de connexion...",
              Effect.netRequest "POST" (API_URL ++ "/auth/login")]
  match env.authLogin with
  | Except.error e =>
      (store, pre ++ [Effect.printErr ("Erreur de connexion : " ++ jsOr e.responseError e.message)])
  | Except.ok token =>
      let pre2 := pre ++ [Effect.netRequest "POST" (API_URL ++ "/user/api-token")]
      match env.apiToken token with
      | Except.error e =>
          (store, pre2 ++ [Effect.printErr ("Erreur de connexion : " ++ jsOr e.responseError e.message)])
      | Except.ok apiKey =>
          (saveApiKey apiKey store,
           pre2 ++ [Effect.writeConfig apiKey,
                    Effect.print "✅ Connexion réussie ! Votre clé API a été sauvegardée."])

/-- A local package manifest (`package.json`): name, version, description. -/
structure Manifest where
  name : String
  version : String
  description : String
deriving Repr, DecidableEq

/-- The three metadata fields appended to the multipart upload body of a
publish request, in append order. -/
structure PublishForm where
  packageName : String
  version : String
  description : String
deriving Repr, DecidableEq

/-- Metadata appended by the `publish` action of `src/flam.js`
(lines 82-84 and 94-96): `packageName` from the manifest's `name`,
`version` from its `version`, `description` from its `description`. -/
def publishForm (m : Manifest) : PublishForm :=
  ⟨m.name, m.version, m.description⟩

/-- Metadata appended by the `publish` action of the variant
`src/unnamed/part_002` (line 73): there `version = pkgJson.name`, so the
`version` field is assigned from the manifest's `name`, not its `version`. -/
def publishForm_variant (m : Manifest) : PublishForm :=
  ⟨m.name, m.name, m.description⟩

/-- Environment of a publish invocation: the credential store contents, the
result of reading `package.json` in the current directory, and the outcome
of the publish request (the server `{message}` on success). -/
structure PublishEnv where
  store : ConfigFile
  manifest : Except AxiosError Manifest
  publishRes : Except AxiosError String

/-- The not-authenticated message of the `publish` action
(`src/flam.js` line 74). -/
def notConnectedMsg : String :=
  "Vous n\x27êtes pas connecté. Veuillez utiliser \x60flam login <email> <password>\x60."

/-- The `publish` action (`src/flam.js` lines 71-110): load the API key and
abort if falsy; read the local manifest and abort on failure; otherwise
announce, POST the multipart form, and print the server message or the
caught error. -/
def publishFlow (env : PublishEnv) : List Effect :=
  let apiKey := loadApiKey env.store
  if !jsTruthy apiKey then
    [Effect.printErr notConnectedMsg]
  else
    match env.manifest with
    | Except.error _ =>
        [Effect.printErr
          "Erreur : Impossible de trouver ou lire le fichier \x60package.json\x60 dans le dossier actuel."]
    | Except.ok m =>
        [Effect.print ("Publication de " ++ m.name ++ "@" ++ m.version ++ "..."),
         Effect.netRequest "POST" (API_URL ++ "/packages/publish")] ++
        match env.publishRes with
        | Except.ok msg => [Effect.print ("✅ " ++ msg)]
        | Except.error e =>
            [Effect.printErr ("Erreur de publication : " ++ jsOr e.responseError e.message)]

/-- One search result, with the field names the server returns
(`src/flam.js` line 127). -/
structure SearchResult where
  package_name : String
  version : String
  description : String
  author : String
deriving Repr, DecidableEq

/-- The line rendered for one search result (`src/flam.js` line 127),
with chalk coloring elided. -/
def renderResult (p : SearchResult) : String :=
  p.package_name ++ "@" ++ p.version ++ " - " ++ p.description ++ " (" ++ p.author ++ ")"

/-- The search request URL (`src/flam.js` line 119): the query is spliced
into the template literal verbatim. -/
def searchUrl (q : String) : String :=
  API_URL ++ "/packages/search?q=" ++ q

/-- The fixed part of the search request URL, before the query. -/
def searchUrlBase : String :=
  API_URL ++ "/packages/search?q="

/-- The `search` action (`src/flam.js` lines 116-133): announce, GET the
search URL; on success print the distinct no-results line when the sequence
is empty and otherwise one line per result in the order received; on
failure print the caught error. -/
def searchFlow (query : String) (res : Except AxiosError (List SearchResult)) : List Effect :=
  [Effect.print ("Recherche de paquets pour \"" ++ query ++ "\"..."),
   Effect.netRequest "GET" (searchUrl query)] ++
  match res with
  | Except.error e =>
      [Effect.printErr ("Erreur de recherche : " ++ jsOr e.responseError e.message)]
  | Except.ok rs =>
      if rs.length = 0 then [Effect.print "Aucun paquet trouvé."]
      else rs.map fun p => Effect.print (renderResult p)

/-- `path.join`, for the paths this program builds (plain segments). -/
def pathJoin (a b : String) : String := a ++ "/" ++ b

/-- Outcome of the download write stream: the `finish` event, or an `error`
event carrying the stream's error message. -/
inductive WriteOutcome where
  | finish
  | streamError (msg : String)
deriving Repr, DecidableEq

/-- The fallback text of the install error line (`src/flam.js` line 168). -/
def notFoundMsg (pkg : String) : String :=
  "Le paquet \"" ++ pkg ++ "\" n\x27a pas été trouvé."

/-- Environment of an install invocation: the current working directory, the
outcome of the details lookup (the resolved latest `version` on success),
the outcome of the download request, and the outcome of the write stream. -/
structure InstallEnv where
  cwd : String
  details : Except AxiosError String
  download : Except AxiosError Unit
  writeOutcome : WriteOutcome

/-- The `install` action (`src/flam.js` lines 139-170): GET the package
details to resolve the latest version, GET the streamed download, ensure
`flam_modules` exists under the current directory, create
`<packageName>-<version>.zip` there and pipe the body into it, then await
the stream.  Any caught error is printed as
`Erreur d\x27installation : <server error field || fixed not-found text>`;
a stream error carries no server response, so it gets the fixed fallback,
and no cleanup of the created file is performed. -/
def installFlow (packageName : String) (env : InstallEnv) : List Effect :=
  [Effect.print ("Recherche de " ++ packageName ++ "..."),
   Effect.netRequest "GET" (API_URL ++ "/packages/details/" ++ packageName)] ++
  match env.details with
  | Except.error e =>
      [Effect.printErr ("Erreur d\x27installation : " ++ jsOr e.responseError (notFoundMsg packageName))]
  | Except.ok version =>
      [Effect.print ("Téléchargement de " ++ packageName ++ "@" ++ version ++ "..."),
       Effect.netRequest "GET" (API_URL ++ "/packages/download/" ++ packageName ++ "/" ++ version)] ++
      match env.download with
      | Except.error e =>
          [Effect.printErr ("Erreur d\x27installation : " ++ jsOr e.responseError (notFoundMsg packageName))]
      | Except.ok _ =>
          let installDir := pathJoin env.cwd "flam_modules"
          let filePath := pathJoin installDir (packageName ++ "-" ++ version ++ ".zip")
          [Effect.ensureDir installDir, Effect.createFile filePath] ++
          match env.writeOutcome with
          | WriteOutcome.finish =>
              [Effect.print ("✅ Paquet " ++ packageName ++
                " installé avec succès dans \x60flam_modules\x60 !")]
          | WriteOutcome.streamError _ =>
              [Effect.printErr ("Erreur d\x27installation : " ++
                jsOr (none : Option String) (notFoundMsg packageName))]

/-- The uppercase hexadecimal digit for a value below 16. -/
def hexDigitChar (n : Nat) : Char :=
  if n < 10 then Char.ofNat (48 + n) else Char.ofNat (55 + n)

/-- Characters left unescaped by JavaScript URL encoding
(`encodeURIComponent`): ASCII letters and digits and `- _ . ~ ! * ( )`
and the apostrophe (code point 39). -/
def isUnreservedChar (c : Char) : Bool :=
  (c.isAlpha || c.isDigit) || c = '-' || c = '_' || c = '.' || c = '~' ||
  c = '!' || c = '*' || c = Char.ofNat 39 || c = '(' || c = ')'

/-- UTF-8 byte values of a code point. -/
def utf8ByteVals (n : Nat) : List Nat :=
  if n < 128 then [n]
  else if n < 2048 then [192 + n / 64, 128 + n % 64]
  else if n < 65536 then [224 + n / 4096, 128 + (n / 64) % 64, 128 + n % 64]
  else [240 + n / 262144, 128 + (n / 4096) % 64, 128 + (n / 64) % 64, 128 + n % 64]

/-- Follows the spec's words, not the source: URL encoding of a query
string (percent-encoding each reserved character's UTF-8 bytes), the
treatment the spec says is applied to the search query.  Used only to
compare against `searchUrl`, which the source builds by verbatim
splicing. -/
def specUrlEncode (s : String) : String :=
  String.join (s.data.map fun c =>
    if isUnreservedChar c then String.singleton c
    else String.join ((utf8ByteVals c.toNat).map fun b =>
      "%" ++ String.singleton (hexDigitChar (b / 16)) ++ String.singleton (hexDigitChar (b % 16))))

end Flam

namespace Flam

/-- Claim C4: saving a key via the Credential Store and then loading returns
that same key, and loading when the configuration file is missing or
unreadable/malformed returns absent rather than an error. -/
theorem credential_round_trip :
    (∀ (key : String) (f : ConfigFile), loadApiKey (saveApiKey key f) = some key) ∧
    loadApiKey ConfigFile.missing = none ∧
    loadApiKey ConfigFile.malformed = none := by
  refine ⟨fun key f => rfl, rfl, rfl⟩

/-- Claim C2: if the authentication request fails, or it succeeds with some
token and the API-token request for that token fails, then the login flow
leaves the credential store unchanged and writes no credential at all; the
API key is persisted only after both requests succeed. -/
theorem login_no_partial_credential (env : LoginEnv) (store : ConfigFile)
    (h : (∃ e, env.authLogin = Except.error e) ∨
         (∃ t e, env.authLogin = Except.ok t ∧ env.apiToken t = Except.error e)) :
    (loginFlow env store).1 = store ∧
    ∀ k, Effect.writeConfig k ∉ (loginFlow env store).2 := by
  rcases h with ⟨e, he⟩ | ⟨t, e, ht, he⟩
  · simp [loginFlow, he]
  · simp [loginFlow, ht, he]

/-- Witness for C2 at a concrete failing environment. -/
theorem login_no_partial_credential_witness :
    (loginFlow ⟨Except.error ⟨none, "connect ECONNREFUSED"⟩, fun _ => Except.ok "k"⟩
        ConfigFile.missing).1 = ConfigFile.missing ∧
    ∀ k, Effect.writeConfig k ∉
      (loginFlow ⟨Except.error ⟨none, "connect ECONNREFUSED"⟩, fun _ => Except.ok "k"⟩
        ConfigFile.missing).2 :=
  login_no_partial_credential _ _ (Or.inl ⟨⟨none, "connect ECONNREFUSED"⟩, rfl⟩)

/-- Claim C1, evaluated at the failing input: on the manifest
`{name: "foo", version: "1.0.0", description: "d"}` the publish action of
the variant `src/unnamed/part_002` appends `"foo"` (the name) as the
`version` metadata field rather than `"1.0.0"`, while the publish action of
`src/flam.js` appends `"1.0.0"` as the claim states. -/
theorem publish_variant_version_bug :
    (publishForm_variant ⟨"foo", "1.0.0", "d"⟩).version = "foo" ∧
    (publishForm_variant ⟨"foo", "1.0.0", "d"⟩).version ≠ "1.0.0" ∧
    (publishForm ⟨"foo", "1.0.0", "d"⟩).version = "1.0.0" := by
  refine ⟨rfl, by decide, rfl⟩

/-- Claim C3: when the Credential Store yields no credential, the publish
flow prints exactly the not-authenticated message and its trace contains no
network request. -/
theorem publish_no_credential_guard (env : PublishEnv)
    (h : loadApiKey env.store = none) :
    publishFlow env = [Effect.printErr notConnectedMsg] ∧
    (publishFlow env).filter isNetRequest = [] := by
  constructor
  · simp [publishFlow, h, jsTruthy]
  · simp [publishFlow, h, jsTruthy, isNetRequest]

/-- Witness for C3 at a concrete empty store. -/
theorem publish_no_credential_guard_witness :
    publishFlow ⟨ConfigFile.missing, Except.ok ⟨"a", "1.0.0", "d"⟩, Except.ok "ok"⟩ =
      [Effect.printErr notConnectedMsg] ∧
    (publishFlow ⟨ConfigFile.missing, Except.ok ⟨"a", "1.0.0", "d"⟩, Except.ok "ok"⟩).filter
        isNetRequest = [] :=
  publish_no_credential_guard ⟨ConfigFile.missing, Except.ok ⟨"a", "1.0.0", "d"⟩, Except.ok "ok"⟩ rfl

/-- Claim C5: when the package-details lookup fails, the install flow aborts
before the installation directory is ensured and before any file is
created: its trace contains no `ensureDir` and creates no file. -/
theorem install_details_failure_no_file (pkg cwd : String) (e : AxiosError)
    (dl : Except AxiosError Unit) (wo : WriteOutcome) :
    (installFlow pkg ⟨cwd, Except.error e, dl, wo⟩).filter isEnsureDir = [] ∧
    createdFiles (installFlow pkg ⟨cwd, Except.error e, dl, wo⟩) = [] := by
  constructor
  · simp [installFlow, isEnsureDir]
  · simp [installFlow, createdFiles]

/-- Claim C6: on a successful search, an empty result sequence renders the
distinct no-results line and no result lines, while a nonempty sequence of
N results renders exactly N lines, one per result, in the order received. -/
theorem search_success_render (q : String) (rs : List SearchResult) :
    (rs = [] → searchFlow q (Except.ok rs) =
      [Effect.print ("Recherche de paquets pour \"" ++ q ++ "\"..."),
       Effect.netRequest "GET" (searchUrl q),
       Effect.print "Aucun paquet trouvé."]) ∧
    (rs ≠ [] → searchFlow q (Except.ok rs) =
      [Effect.print ("Recherche de paquets pour \"" ++ q ++ "\"..."),
       Effect.netRequest "GET" (searchUrl q)] ++
        rs.map (fun p => Effect.print (renderResult p)) ∧
      (rs.map fun p => Effect.print (renderResult p)).length = rs.length) := by
  constructor
  · intro h
    subst h
    simp [searchFlow]
  · intro h
    have hlen : rs.length ≠ 0 := by simpa using h
    constructor
    · simp [searchFlow, hlen]
    · simp

/-- Witness for C6 at a concrete empty and a concrete one-element result
sequence. -/
theorem search_success_render_witness :
    (searchFlow "x" (Except.ok ([] : List SearchResult)) =
      [Effect.print ("Recherche de paquets pour \"" ++ "x" ++ "\"..."),
       Effect.netRequest "GET" (searchUrl "x"),
       Effect.print "Aucun paquet trouvé."]) ∧
    (searchFlow "x" (Except.ok [(⟨"p", "1", "d", "a"⟩ : SearchResult)]) =
      [Effect.print ("Recherche de paquets pour \"" ++ "x" ++ "\"..."),
       Effect.netRequest "GET" (searchUrl "x")] ++
        ([(⟨"p", "1", "d", "a"⟩ : SearchResult)]).map
          (fun p => Effect.print (renderResult p)) ∧
      (([(⟨"p", "1", "d", "a"⟩ : SearchResult)]).map
          fun p => Effect.print (renderResult p)).length =
        ([(⟨"p", "1", "d", "a"⟩ : SearchResult)]).length) :=
  ⟨(search_success_render "x" []).1 rfl,
   (search_success_render "x" [⟨"p", "1", "d", "a"⟩]).2 (by decide)⟩

/-- Claim C7: a successful install of package `pkg` at resolved version `v`
creates exactly one file, literally named `pkg-v.zip`, inside the
`flam_modules` directory under the current working directory, and no other
file. -/
theorem install_success_creates_one_file (pkg v cwd : String) :
    createdFiles (installFlow pkg ⟨cwd, Except.ok v, Except.ok (), WriteOutcome.finish⟩) =
      [pathJoin (pathJoin cwd "flam_modules") (pkg ++ "-" ++ v ++ ".zip")] := by
  simp [installFlow, createdFiles]

/-- Claim C10: when the download write stream reports an error after the
file was created, the install flow reports an installation failure but
performs no cleanup: the created `pkg-v.zip` file is never removed from the
trace, and the failure line is printed. -/
theorem install_write_error_no_cleanup (pkg v cwd msg : String) :
    createdFiles (installFlow pkg ⟨cwd, Except.ok v, Except.ok (), WriteOutcome.streamError msg⟩) =
      [pathJoin (pathJoin cwd "flam_modules") (pkg ++ "-" ++ v ++ ".zip")] ∧
    removedFiles (installFlow pkg ⟨cwd, Except.ok v, Except.ok (), WriteOutcome.streamError msg⟩) =
      [] ∧
    Effect.printErr ("Erreur d\x27installation : " ++ notFoundMsg pkg) ∈
      installFlow pkg ⟨cwd, Except.ok v, Except.ok (), WriteOutcome.streamError msg⟩ := by
  refine ⟨?_, ?_, ?_⟩
  · simp [installFlow, createdFiles]
  · simp [installFlow, removedFiles]
  · simp [installFlow, jsOr]

/-- Counterexample to claim C8 as stated: on an install whose details
lookup fails with a pure transport error (`connect ECONNREFUSED`, no
server error field), the install flow does not print the transport's
message; its single error line is the fixed not-found text instead. -/
theorem install_error_message_counterexample :
    Effect.printErr ("Erreur d\x27installation : " ++ "connect ECONNREFUSED") ∉
      installFlow "foo"
        ⟨".", Except.error ⟨none, "connect ECONNREFUSED"⟩, Except.ok (), WriteOutcome.finish⟩ ∧
    printErrs (installFlow "foo"
        ⟨".", Except.error ⟨none, "connect ECONNREFUSED"⟩, Except.ok (), WriteOutcome.finish⟩) =
      ["Erreur d\x27installation : " ++ notFoundMsg "foo"] := by
  decide

/-- Claim C8 as amended: on failure after a network call, the single
user-facing error line carries the server-provided error field when the
response has a non-empty one, in all four flows; when there is no server
error field, the login, publish and search flows fall back to the
transport's message, but the install flow falls back to a fixed not-found
text naming the package, not the transport message. -/
theorem error_message_policy (e : AxiosError) (tk q pkg cwd key : String)
    (m : Manifest) (store : ConfigFile) (hkey : key.isEmpty = false) :
    (∀ s, e.responseError = some s → s.isEmpty = false →
      printErrs (loginFlow ⟨Except.error e, fun _ => Except.ok tk⟩ store).2 =
        ["Erreur de connexion : " ++ s] ∧
      printErrs (publishFlow ⟨ConfigFile.json (some key), Except.ok m, Except.error e⟩) =
        ["Erreur de publication : " ++ s] ∧
      printErrs (searchFlow q (Except.error e)) = ["Erreur de recherche : " ++ s] ∧
      printErrs (installFlow pkg ⟨cwd, Except.error e, Except.ok (), WriteOutcome.finish⟩) =
        ["Erreur d\x27installation : " ++ s]) ∧
    (e.responseError = none →
      printErrs (loginFlow ⟨Except.error e, fun _ => Except.ok tk⟩ store).2 =
        ["Erreur de connexion : " ++ e.message] ∧
      printErrs (publishFlow ⟨ConfigFile.json (some key), Except.ok m, Except.error e⟩) =
        ["Erreur de publication : " ++ e.message] ∧
      printErrs (searchFlow q (Except.error e)) = ["Erreur de recherche : " ++ e.message] ∧
      printErrs (installFlow pkg ⟨cwd, Except.error e, Except.ok (), WriteOutcome.finish⟩) =
        ["Erreur d\x27installation : " ++ notFoundMsg pkg]) := by
  constructor
  · intro s hs hse
    refine ⟨?_, ?_, ?_, ?_⟩ <;>
      simp [loginFlow, publishFlow, searchFlow, installFlow, printErrs,
            jsOr, jsTruthy, loadApiKey, hs, hse, hkey]
  · intro hn
    refine ⟨?_, ?_, ?_, ?_⟩ <;>
      simp [loginFlow, publishFlow, searchFlow, installFlow, printErrs,
            jsOr, jsTruthy, loadApiKey, hn, hkey]

/-- Witness for the amended C8 at a concrete transport-only error. -/
theorem error_message_policy_witness :
    printErrs (loginFlow ⟨Except.error ⟨none, "boom"⟩, fun _ => Except.ok "tk"⟩
        ConfigFile.missing).2 = ["Erreur de connexion : " ++ "boom"] ∧
    printErrs (publishFlow ⟨ConfigFile.json (some "key"), Except.ok ⟨"n", "1", "d"⟩,
        Except.error ⟨none, "boom"⟩⟩) = ["Erreur de publication : " ++ "boom"] ∧
    printErrs (searchFlow "q" (Except.error ⟨none, "boom"⟩)) =
      ["Erreur de recherche : " ++ "boom"] ∧
    printErrs (installFlow "foo"
        ⟨".", Except.error ⟨none, "boom"⟩, Except.ok (), WriteOutcome.finish⟩) =
      ["Erreur d\x27installation : " ++ notFoundMsg "foo"] :=
  (error_message_policy ⟨none, "boom"⟩ "tk" "q" "foo" "." "key" ⟨"n", "1", "d"⟩
    ConfigFile.missing rfl).2 rfl

/-- Counterexample to claim C9 as stated: the query `"a b"` is not
URL-encoded before being placed as the `q` parameter — the URL the search
flow requests splices it verbatim, which differs from the URL built from
the encoded query (`a%20b`). -/
theorem search_query_not_urlencoded :
    searchUrl "a b" ≠ searchUrlBase ++ specUrlEncode "a b" := by
  decide

/-- Claim C9 as amended: the query string is placed verbatim as the `q`
parameter of the search request URL, with no URL encoding and no other
local escaping or validation; distinct queries give distinct URLs. -/
theorem search_query_verbatim (q₁ q₂ : String) :
    searchUrl q₁ = searchUrlBase ++ q₁ ∧
    (searchUrl q₁ = searchUrl q₂ → q₁ = q₂) := by
  refine ⟨rfl, fun h => ?_⟩
  apply String.ext
  have h2 := congrArg String.data h
  simp [searchUrl, String.data_append] at h2
  exact h2

/-- Witness for the amended C9 at a concrete query. -/
theorem search_query_verbatim_witness :
    searchUrl "a" = searchUrlBase ++ "a" ∧ "a" = "a" :=
  ⟨(search_query_verbatim "a" "a").1, (search_query_verbatim "a" "a").2 rfl⟩

end Flam
